import Mathlib

/-!
Verification of the ownership-pattern examples in
`rust-patterns-for-lifetime-management`.

Each Rust example file is embedded shallowly in its own namespace:
pure Rust functions become Lean functions, the bindings created in each
example's `main` become top-level definitions, and `Vec<String>` is
modelled as its element list together with the observable allocation
capacity.  `usize` is a 64-bit machine integer, so `usize::MAX` is
`2 ^ 64 - 1`.
-/

namespace BlogPosts

/-- `usize::MAX` on a 64-bit target. -/
def usizeMAX : Nat := 2 ^ 64 - 1

/-- Model of Rust's `Vec<String>`: the elements together with the
allocated capacity as observable through `Vec::capacity`. -/
structure VecString where
  data : List String
  capacity : Nat
deriving DecidableEq

/-- `Vec::with_capacity(cap)`: an empty vector whose allocation holds the
requested capacity. -/
def VecString.with_capacity (cap : Nat) : VecString :=
  { data := [], capacity := cap }

/-- `Vec::len`. -/
def VecString.len (v : VecString) : Nat := v.data.length

/-- The generic versioned wrapper shared by `example_2.rs` and
`examples/example_3.rs`: an integer version tag plus the embedded payload. -/
structure Versioned (O : Type) where
  version : Nat
  obj : O
deriving DecidableEq

namespace Example1

/-- `Config` from `examples/example_1.rs`: a single path field. -/
structure Config where
  path : String
deriving DecidableEq

/-- `is_valid_config` from `examples/example_1.rs`: true exactly when the
borrowed config's path is non-empty. -/
def is_valid_config (config : Config) : Bool :=
  !config.path.isEmpty

/-- The `config` binding constructed in `main` of `examples/example_1.rs`. -/
def config : Config :=
  { path := "/etc/nginx/nginx.conf" }

end Example1

namespace Example2

/-- `Config` from `example_2.rs` (Example D): a single path field,
with `#[derive(Clone)]`. -/
structure Config where
  path : String
deriving DecidableEq

/-- The derived `Clone` implementation: field-wise deep duplication. -/
def Config.clone (c : Config) : Config :=
  { path := c.path }

/-- `save_config_version` from `example_2.rs`: wraps the consumed config
in a `Versioned` with version 1. -/
def save_config_version (config : Config) : Versioned Config :=
  { version := 1, obj := config }

/-- The `config` binding constructed in `main` of `example_2.rs`. -/
def config : Config :=
  { path := "/etc/nginx/nginx.conf" }

/-- The `version_1` binding of `main`: `save_config_version(config.clone())`. -/
def version_1 : Versioned Config :=
  save_config_version config.clone

end Example2

namespace Example3

/-- `Config` from `examples/example_3.rs` (Example C): a path plus a large
pre-allocated vector. -/
structure Config where
  path : String
  very_long_vector : VecString
deriving DecidableEq

/-- `const CAPACITY: usize = usize::MAX / 10000000;` -/
def CAPACITY : Nat := usizeMAX / 10000000

/-- `save_config_version` from `examples/example_3.rs`: wraps the consumed
config in a `Versioned` with version 1. -/
def save_config_version (config : Config) : Versioned Config :=
  { version := 1, obj := config }

/-- The `config` binding constructed in `main` of `examples/example_3.rs`. -/
def config : Config :=
  { path := "/etc/nginx/nginx.conf"
    very_long_vector := VecString.with_capacity CAPACITY }

/-- The `versioned_config` binding of `main`: `save_config_version(config)`,
with `config` moved in. -/
def versioned_config : Versioned Config :=
  save_config_version config

end Example3

namespace Example5

/-- `Config` from `examples/example_5.rs` (Example E): a single large
pre-allocated vector, with derived `PartialEq` comparing the elements. -/
structure Config where
  very_large_vec : VecString
deriving DecidableEq

/-- Value-level model of `Arc<T>`: the pointed-to value.  `PartialEq` on
`Arc<T>` compares the pointed-to values, and `Arc::clone` yields a handle
to the same value. -/
structure Arc (T : Type) where
  data : T
deriving DecidableEq

/-- `Arc::clone`: a new handle observing the same underlying value. -/
def Arc.clone {T : Type} (a : Arc T) : Arc T :=
  { data := a.data }

/-- `Worker` from `examples/example_5.rs`: one shared handle to the config. -/
structure Worker where
  config : Arc Config
deriving DecidableEq

/-- `const CAPACITY: usize = usize::MAX / 10000000;` -/
def CAPACITY : Nat := usizeMAX / 10000000

/-- The first `config` binding of `main`: the plain `Config` value. -/
def config0 : Config :=
  { very_large_vec := VecString.with_capacity CAPACITY }

/-- The second `config` binding of `main`: `Arc::new(config)`, shadowing the
moved-out original. -/
def config : Arc Config :=
  { data := config0 }

/-- The `workers` binding of `main`: 100 workers produced by
`iter::repeat(Worker { config: config.clone() }).take(100).collect()`;
each worker holds a clone of the shared handle. -/
def workers : List Worker :=
  List.replicate 100 { config := config.clone }

/-- An out-of-range placeholder worker, used as the default of `List.getD`;
its handle is deliberately distinct from the shared configuration. -/
def dummyWorker : Worker :=
  { config := { data := { very_large_vec := { data := [], capacity := 0 } } } }

/-- Allocation-level model of `Arc<Config>` for Example E: the store lists
the underlying configuration allocations made so far. -/
structure Store where
  allocs : List Config
deriving DecidableEq

/-- Allocation-level model of a shared handle: an index into the store. -/
structure Handle where
  ptr : Nat
deriving DecidableEq

/-- `Arc::new` at the allocation level: performs exactly one allocation and
returns a handle to it. -/
def arcNew (st : Store) (c : Config) : Handle × Store :=
  ({ ptr := st.allocs.length }, { allocs := st.allocs ++ [c] })

/-- `Arc::clone` at the allocation level: returns a handle to the same
allocation and performs no allocation (only the reference count changes,
which does not affect the store of configuration allocations). -/
def arcClone (st : Store) (h : Handle) : Handle × Store :=
  (h, st)

/-- Building `n` worker handles, each by cloning the shared handle, threading
the allocation store: models `iter::repeat(Worker { config: config.clone() })
.take(n).collect()`. -/
def mkWorkerHandles : Nat → Handle → Store → List Handle × Store
  | 0, _, st => ([], st)
  | n + 1, h, st =>
    let c := arcClone st h
    let rest := mkWorkerHandles n h c.2
    (c.1 :: rest.1, rest.2)

/-- The allocation store before `main` allocates anything. -/
def initStore : Store := { allocs := [] }

/-- The result of `Arc::new(config)` in the allocation-level model. -/
def newResult : Handle × Store := arcNew initStore config0

/-- The shared handle bound to `config` in the allocation-level model. -/
def sharedHandle : Handle := newResult.1

/-- The allocation store after `Arc::new(config)`. -/
def store1 : Store := newResult.2

/-- The 100 worker handles and the final store. -/
def cloneResult : List Handle × Store := mkWorkerHandles 100 sharedHandle store1

/-- The handles held by the 100 workers. -/
def workerHandles : List Handle := cloneResult.1

/-- The allocation store after all 100 workers are built. -/
def finalStore : Store := cloneResult.2

end Example5

namespace Example4

/-- The observable outcome of running a fallible computation: either a value,
or a panic (abnormal termination). -/
inductive Outcome (T : Type) where
  | ok : T → Outcome T
  | panicked : Outcome T
deriving DecidableEq

/-- `Result::unwrap`: the value on `Ok`, a panic on `Err`. -/
def unwrap {E T : Type} : Except E T → Outcome T
  | Except.ok a => Outcome.ok a
  | Except.error _ => Outcome.panicked

/-- The spawned task body `client.get(URL).send().await.unwrap()` of
`example_4.rs`, as a function of the outcome of the one outbound network
request. -/
def task (E T : Type) (net : Except E T) : Outcome T :=
  unwrap net

/-- Awaiting the spawned task's join handle: a panic inside the task
surfaces as an `Err` from the join handle; otherwise the task's value is
returned. -/
def joinTask {T : Type} : Outcome T → Except Unit T
  | Outcome.ok a => Except.ok a
  | Outcome.panicked => Except.error ()

/-- `main` of `example_4.rs` (Example F), as a function of the network
request's outcome: it awaits the spawned task and unwraps the join result,
so the program exits with code 0 exactly when the request succeeded and
panics (terminates abnormally) otherwise. -/
def run (E T : Type) (net : Except E T) : Outcome Nat :=
  match unwrap (joinTask (task E T net)) with
  | Outcome.ok _ => Outcome.ok 0
  | Outcome.panicked => Outcome.panicked

end Example4

/-- For every index below the replicated length, `List.getD` on a
replicated list returns the replicated element. -/
theorem getD_replicate_lt {α : Type} (d a : α) :
    ∀ (n i : Nat), i < n → (List.replicate n a).getD i d = a
  | _ + 1, 0, _ => rfl
  | n + 1, i + 1, h =>
    getD_replicate_lt d a n i (Nat.lt_of_succ_lt_succ h)

/-- Cloning a handle `n` times yields `n` copies of that handle and leaves
the allocation store unchanged. -/
theorem mkWorkerHandles_eq (n : Nat) (h : Example5.Handle) (st : Example5.Store) :
    Example5.mkWorkerHandles n h st = (List.replicate n h, st) := by
  induction n with
  | zero => rfl
  | succ n ih =>
    simp [Example5.mkWorkerHandles, Example5.arcClone, ih, List.replicate]

/-- Claim C1: for every `Config`, `is_valid_config` returns false exactly
when the path field is the empty string, and returns true exactly when the
path is non-empty; in particular it returns true on Example A's config with
path "/etc/nginx/nginx.conf". -/
theorem C1_is_valid_config_iff_nonempty_path :
    (∀ c : Example1.Config,
      (Example1.is_valid_config c = false ↔ c.path = "") ∧
      (Example1.is_valid_config c = true ↔ c.path ≠ "")) ∧
    Example1.is_valid_config Example1.config = true := by
  refine ⟨fun c => ⟨?_, ?_⟩, rfl⟩ <;>
    simp [Example1.is_valid_config, Bool.eq_false_iff, String.isEmpty_iff]

/-- Claim C2: for every configuration record `c` of Example B and of
Example C, `save_config_version c` has version 1 and its `obj` field is
exactly the configuration passed in, every field unchanged. -/
theorem C2_save_config_version_wraps_unchanged :
    (∀ c : Example2.Config,
      (Example2.save_config_version c).version = 1 ∧
      (Example2.save_config_version c).obj = c) ∧
    (∀ c : Example3.Config,
      (Example3.save_config_version c).version = 1 ∧
      (Example3.save_config_version c).obj = c) :=
  ⟨fun _ => ⟨rfl, rfl⟩, fun _ => ⟨rfl, rfl⟩⟩

/-- Claim C3: in Example C's main, the versioned wrapper returned by
`save_config_version` preserves the pre-reserved vector capacity exactly:
`versioned_config.obj.very_long_vector.capacity` equals
`CAPACITY = usize::MAX / 10000000`. -/
theorem C3_capacity_preserved_across_move :
    Example3.versioned_config.obj.very_long_vector.capacity =
      Example3.CAPACITY ∧
    Example3.CAPACITY = usizeMAX / 10000000 :=
  ⟨rfl, rfl⟩

/-- Claim C4: in Example E's main, the configurations observed through the
first two workers have equal capacity and are structurally equal, and
structural equality of the pointed-to configuration holds pairwise between
every pair of the 100 workers. -/
theorem C4_workers_observe_equal_configs :
    ((Example5.workers.getD 0 Example5.dummyWorker).config.data.very_large_vec.capacity =
      (Example5.workers.getD 1 Example5.dummyWorker).config.data.very_large_vec.capacity) ∧
    ((Example5.workers.getD 0 Example5.dummyWorker).config.data =
      (Example5.workers.getD 1 Example5.dummyWorker).config.data) ∧
    (∀ i j : Nat, i < 100 → j < 100 →
      (Example5.workers.getD i Example5.dummyWorker).config.data =
        (Example5.workers.getD j Example5.dummyWorker).config.data) := by
  refine ⟨rfl, rfl, fun i j hi hj => ?_⟩
  rw [Example5.workers, getD_replicate_lt _ _ _ i hi,
    getD_replicate_lt _ _ _ j hj]

/-- Claim C4, witness: the pairwise part instantiated at workers 0 and 1. -/
theorem C4_workers_observe_equal_configs_witness :
    (Example5.workers.getD 0 Example5.dummyWorker).config.data =
      (Example5.workers.getD 1 Example5.dummyWorker).config.data :=
  C4_workers_observe_equal_configs.2.2 0 1 (by decide) (by decide)

/-- Claim C5: in Example F, for every outcome of the single outbound network
request, the program terminates abnormally (panics) when the request fails
and terminates normally with exit code 0 when it succeeds; the spawned
task's outcome is awaited and folded into the program's outcome. -/
theorem C5_example_f_fatal_on_network_failure (E T : Type) :
    (∀ r : T, Example4.run E T (Except.ok r) = Example4.Outcome.ok 0) ∧
    (∀ e : E, Example4.run E T (Except.error e) = Example4.Outcome.panicked) ∧
    (∀ net : Except E T,
      Example4.run E T net =
        match Example4.joinTask (Example4.task E T net) with
        | Except.ok _ => Example4.Outcome.ok 0
        | Except.error _ => Example4.Outcome.panicked) :=
  ⟨fun _ => rfl, fun _ => rfl, fun net => by
    cases net <;> rfl⟩

/-- Claim C6: in Example D, the clone of the configuration is structurally
equal to the original at the moment of duplication (indeed every clone is),
and after passing the clone into `save_config_version` the caller's
original binding is unchanged, still holding path "/etc/nginx/nginx.conf". -/
theorem C6_clone_equal_and_original_retained :
    (∀ c : Example2.Config, c.clone = c) ∧
    Example2.config.clone = Example2.config ∧
    Example2.version_1.obj = Example2.config.clone ∧
    Example2.config.path = "/etc/nginx/nginx.conf" :=
  ⟨fun _ => rfl, rfl, rfl, rfl⟩

/-- Claim C7: no example mutates the configuration after construction: the
configuration observable at the end of each example — directly in A, via
the caller's retained binding in D, inside the versioned wrapper in C, and
through every worker's shared handle in E — has exactly the field values it
had at construction.  `is_valid_config` is embedded as a pure function
`Config → Bool`, reflecting that an immutable borrow admits no side effect
on, and no retention of, its input. -/
theorem C7_config_never_mutated :
    Example1.config.path = "/etc/nginx/nginx.conf" ∧
    Example2.config = { path := "/etc/nginx/nginx.conf" } ∧
    Example3.versioned_config.obj = Example3.config ∧
    (∀ i : Nat, i < 100 →
      (Example5.workers.getD i Example5.dummyWorker).config.data =
        Example5.config0) := by
  refine ⟨rfl, rfl, rfl, fun i hi => ?_⟩
  rw [Example5.workers, getD_replicate_lt _ _ _ i hi]
  rfl

/-- Claim C7, witness: the worker part instantiated at worker 0. -/
theorem C7_config_never_mutated_witness :
    (Example5.workers.getD 0 Example5.dummyWorker).config.data =
      Example5.config0 :=
  C7_config_never_mutated.2.2.2 0 (by decide)

/-- Claim C8: in Example E, building the 100 workers by cloning the shared
handle leaves exactly one underlying configuration allocation, and every
worker's handle aliases that same single allocation. -/
theorem C8_single_allocation_shared_by_all_workers :
    Example5.finalStore.allocs.length = 1 ∧
    Example5.finalStore.allocs = [Example5.config0] ∧
    (∀ i : Nat, i < 100 →
      Example5.workerHandles.getD i { ptr := 999 } = Example5.sharedHandle) := by
  have h : Example5.cloneResult =
      (List.replicate 100 Example5.sharedHandle, Example5.store1) :=
    mkWorkerHandles_eq 100 Example5.sharedHandle Example5.store1
  refine ⟨?_, ?_, fun i hi => ?_⟩
  · show Example5.cloneResult.2.allocs.length = 1
    rw [h]; rfl
  · show Example5.cloneResult.2.allocs = [Example5.config0]
    rw [h]; rfl
  · show Example5.cloneResult.1.getD i { ptr := 999 } = Example5.sharedHandle
    rw [h]
    exact getD_replicate_lt _ _ _ i hi

/-- Claim C8, witness: worker 0's handle aliases the shared allocation. -/
theorem C8_single_allocation_shared_by_all_workers_witness :
    Example5.workerHandles.getD 0 { ptr := 999 } = Example5.sharedHandle :=
  C8_single_allocation_shared_by_all_workers.2.2 0 (by decide)

/-- Claim C9: every assertion in the mains of Examples B, C and E holds on
the fixed inputs constructed there, so each of these programs runs its main
to completion without an assertion-triggered abort. -/
theorem C9_all_assertions_hold :
    (Example2.version_1.version = 1 ∧
      Example2.version_1.obj.path = "/etc/nginx/nginx.conf") ∧
    (Example3.versioned_config.version = 1 ∧
      Example3.versioned_config.obj.path = "/etc/nginx/nginx.conf" ∧
      Example3.versioned_config.obj.very_long_vector.capacity =
        Example3.CAPACITY) ∧
    ((Example5.workers.getD 0 Example5.dummyWorker).config.data.very_large_vec.capacity =
      Example5.CAPACITY ∧
     (Example5.workers.getD 0 Example5.dummyWorker).config.data =
      (Example5.workers.getD 1 Example5.dummyWorker).config.data) :=
  ⟨⟨rfl, rfl⟩, ⟨rfl, rfl, rfl⟩, ⟨rfl, rfl⟩⟩

/-- Claim C10: in Examples C and E the pre-sized vector field is created by
reserving capacity only: it has length zero at construction and at every
later observation point, while its capacity stays `usize::MAX / 10000000`. -/
theorem C10_presized_vector_stays_empty :
    Example3.config.very_long_vector.len = 0 ∧
    Example3.versioned_config.obj.very_long_vector.len = 0 ∧
    Example3.versioned_config.obj.very_long_vector.capacity =
      usizeMAX / 10000000 ∧
    Example5.config0.very_large_vec.len = 0 ∧
    Example5.config.data.very_large_vec.len = 0 ∧
    (∀ i : Nat, i < 100 →
      (Example5.workers.getD i Example5.dummyWorker).config.data.very_large_vec.len = 0 ∧
      (Example5.workers.getD i Example5.dummyWorker).config.data.very_large_vec.capacity =
        usizeMAX / 10000000) := by
  refine ⟨rfl, rfl, rfl, rfl, rfl, fun i hi => ?_⟩
  rw [Example5.workers, getD_replicate_lt _ _ _ i hi]
  exact ⟨rfl, rfl⟩

/-- Claim C10, witness: the worker part instantiated at worker 0. -/
theorem C10_presized_vector_stays_empty_witness :
    (Example5.workers.getD 0 Example5.dummyWorker).config.data.very_large_vec.len = 0 ∧
    (Example5.workers.getD 0 Example5.dummyWorker).config.data.very_large_vec.capacity =
      usizeMAX / 10000000 :=
  C10_presized_vector_stays_empty.2.2.2.2.2 0 (by decide)

end BlogPosts
